import Mathlib

/-!
Shallow embedding of `services/surfaceflinger/DisplayHardware/VirtualDisplaySurface.cpp`
(android_frameworks_native).

The two buffer sources (the external sink `IGraphicBufferProducer` and the internal
scratch `BufferQueue`), and the hardware composer, are external collaborators: their
replies are passed in as explicit oracle arguments, and the calls this module makes
on them are returned as explicit call lists.  Machine integers: `status_t` is `Int`
(negative values are errors), `uint32_t` bitmask arithmetic is `Nat` with an explicit
32-bit complement where the source uses `~`.
-/

namespace VDS

/-- `BufferQueue::NUM_BUFFER_SLOTS` (declared in BufferQueue.h, not under src/):
the shared fixed number of buffer slots, 32 in this source tree. -/
def NUM_BUFFER_SLOTS : Nat := 32

/-- `status_t NO_ERROR = 0`. -/
def NO_ERROR : Int := 0

/-- `status_t NO_MEMORY = -ENOMEM = -12`. -/
def NO_MEMORY : Int := -12

/-- `GRALLOC_USAGE_HW_COMPOSER = 0x800`. -/
def GRALLOC_USAGE_HW_COMPOSER : Nat := 0x800

/-- `enum Source { SOURCE_SINK, SOURCE_SCRATCH }` (VirtualDisplaySurface.h). -/
inductive Source
  | sink
  | scratch
deriving DecidableEq

/-- `static_cast<uint32_t>(source)`: SOURCE_SINK = 0, SOURCE_SCRATCH = 1. -/
def Source.toBits : Source → Nat
  | .sink => 0
  | .scratch => 1

/-- `DisplaySurface::CompositionType`: UNKNOWN, GLES (render only),
HWC (composite only), MIXED. -/
inductive CompositionType
  | unknown
  | gles
  | hwc
  | mixed
deriving DecidableEq

/-- `enum DbgState` (VirtualDisplaySurface.h): the debug frame-state machine
IDLE, PREPARED, GLES, GLES_DONE, HWC. -/
inductive DbgState
  | idle
  | prepared
  | gles
  | glesDone
  | hwc
deriving DecidableEq

/-- An `sp<Fence>`: either the distinguished `Fence::NO_FENCE` or a real fence. -/
inductive Fence
  | noFence
  | mk (id : Nat)
deriving DecidableEq

/-- `Fence::NO_FENCE`. -/
def NO_FENCE : Fence := Fence.noFence

/-- `QueueBufferOutput` payload: width, height, transform hint, pending buffer count
(the fields `deflate`/`inflate` move). -/
structure QueueBufferOutput where
  width : Nat
  height : Nat
  transformHint : Nat
  numPendingBuffers : Nat
deriving DecidableEq

/-- The mutable state of a `VirtualDisplaySurface`.  A cached `sp<GraphicBuffer>`
is `Option Nat` (a handle, `none` = null). -/
structure VDSState where
  displayId : Int
  producerUsage : Nat
  producerSlotSource : Nat
  producerBuffers : Nat → Option Nat
  compositionType : CompositionType
  dbgLastCompositionType : CompositionType
  sinkBufferWidth : Nat
  sinkBufferHeight : Nat
  fbFence : Fence
  fbProducerSlot : Int
  outputProducerSlot : Int
  queueBufferOutput : QueueBufferOutput
  dbgState : DbgState

/-- `mapSource2ProducerSlot`: SCRATCH reflects the index
(`NUM_BUFFER_SLOTS - sslot - 1`), SINK is the identity. -/
def mapSource2ProducerSlot : Source → Int → Int
  | .scratch, sslot => (NUM_BUFFER_SLOTS : Int) - sslot - 1
  | .sink, sslot => sslot

/-- `mapProducer2SourceSlot`: literally the same function as
`mapSource2ProducerSlot`. -/
def mapProducer2SourceSlot (source : Source) (pslot : Int) : Int :=
  mapSource2ProducerSlot source pslot

/-- `fbSourceForCompositionType`: `type == COMPOSITION_MIXED ? SOURCE_SCRATCH
: SOURCE_SINK`. -/
def fbSourceForCompositionType (type : CompositionType) : Source :=
  if type = CompositionType.mixed then Source.scratch else Source.sink

/-- `resetPerFrameState`: per-frame fields back to their idle defaults. -/
def resetPerFrameState (st : VDSState) : VDSState :=
  { st with
    compositionType := CompositionType.unknown
    sinkBufferWidth := 0
    sinkBufferHeight := 0
    fbFence := NO_FENCE
    fbProducerSlot := -1
    outputProducerSlot := -1 }

/-- Which producer `getIGraphicBufferProducer` hands out: the
`VirtualDisplaySurface` itself, or the sink directly. -/
inductive ProducerRef
  | vds
  | sinkRef
deriving DecidableEq

/-- `getIGraphicBufferProducer`: this object when `mDisplayId >= 0`, else the
sink source directly. -/
def getIGraphicBufferProducer (st : VDSState) : ProducerRef :=
  if 0 ≤ st.displayId then ProducerRef.vds else ProducerRef.sinkRef

/-- `prepareFrame(compositionType)`: no-op when `mDisplayId < 0`; otherwise move
to PREPARED, record the composition type (and the debug last-type). -/
def prepareFrame (st : VDSState) (compositionType : CompositionType) :
    VDSState × Int :=
  if st.displayId < 0 then (st, NO_ERROR)
  else
    let st1 := { st with dbgState := DbgState.prepared,
                         compositionType := compositionType }
    let st2 :=
      if st1.compositionType ≠ st1.dbgLastCompositionType then
        { st1 with dbgLastCompositionType := st1.compositionType }
      else st1
    (st2, NO_ERROR)

/-- Pointwise update of the `mProducerBuffers` table
(`mProducerBuffers[i] = v`). -/
def setBuf (bufs : Nat → Option Nat) (i : Nat) (v : Option Nat) :
    Nat → Option Nat :=
  fun j => if j = i then v else bufs j

/-- The `RELEASE_ALL_BUFFERS` loop of `dequeueBuffer(Source,...)`, generalised
over the loop bound: for each `i < n`, if
`(mProducerSlotSource & (1u << i)) == sourceBit` then clear
`mProducerBuffers[i]`. -/
def clearOwnedLoop (slotSource sourceBit : Nat) (bufs : Nat → Option Nat)
    (n : Nat) : Nat → Option Nat :=
  (List.range n).foldl
    (fun b i => if slotSource &&& (1 <<< i) = sourceBit then setBuf b i none else b)
    bufs

/-- The `RELEASE_ALL_BUFFERS` loop with the source's bound
`BufferQueue::NUM_BUFFER_SLOTS`. -/
def releaseAllBuffers (slotSource sourceBit : Nat) (bufs : Nat → Option Nat) :
    Nat → Option Nat :=
  clearOwnedLoop slotSource sourceBit bufs NUM_BUFFER_SLOTS

/-- 32-bit complement, `~x` on a `uint32_t`. -/
def complement32 (x : Nat) : Nat := (2 ^ 32 - 1) ^^^ x

/-- Reply of the wrapped source's `dequeueBuffer`: either a negative error
status, or a native slot and fence together with the two flag bits
(`BUFFER_NEEDS_REALLOCATION`, `RELEASE_ALL_BUFFERS`) of the non-negative
status. -/
inductive SourceDequeueReply
  | error (e : Int)
  | ok (sslot : Nat) (fence : Fence) (needsRealloc releaseAll : Bool)
deriving DecidableEq

/-- Successful result of `dequeueBuffer(Source,...)`: the out-params `*sslot`
and `*fence`, and the flag bits of the returned status. -/
structure SourceDequeueOk where
  sslot : Nat
  fence : Fence
  needsRealloc : Bool
  releaseAll : Bool
deriving DecidableEq

/-- Result of `dequeueBuffer(Source,...)`: post-state, status, and the list of
`requestBuffer(sslot)` calls made on a source. -/
structure SourceDequeueResult where
  st : VDSState
  res : Except Int SourceDequeueOk
  requestCalls : List (Source × Nat)

/-- `dequeueBuffer(Source source, uint32_t format, int* sslot, sp<Fence>* fence)`:
dequeue from the wrapped source (its reply is the oracle `reply`; a
`requestBuffer` reply, if one is made, is the oracle `reqBuf`), map the native
slot to a producer slot, flip the ownership bit on mismatch (adding
`BUFFER_NEEDS_REALLOCATION`), clear cached buffers on `RELEASE_ALL_BUFFERS`,
and re-request the buffer when reallocation is flagged. -/
def dequeueBufferSource (st : VDSState) (source : Source) (reqBuf : Option Nat)
    (reply : SourceDequeueReply) : SourceDequeueResult :=
  match reply with
  | .error e => ⟨st, .error e, []⟩
  | .ok sslot fence nr ra =>
      let pslot : Nat := (mapSource2ProducerSlot source ((sslot : Int))).toNat
      let sourceBit : Nat := source.toBits <<< pslot
      let mismatch : Bool :=
        decide ((st.producerSlotSource &&& (1 <<< pslot)) ≠ sourceBit)
      let nr' : Bool := nr || mismatch
      let slotSource' : Nat :=
        if mismatch then
          (st.producerSlotSource &&& complement32 (1 <<< pslot)) ||| sourceBit
        else st.producerSlotSource
      let bufs1 : Nat → Option Nat :=
        if ra then releaseAllBuffers slotSource' sourceBit st.producerBuffers
        else st.producerBuffers
      let bufs2 : Nat → Option Nat :=
        if nr' then setBuf bufs1 pslot reqBuf else bufs1
      let calls : List (Source × Nat) := if nr' then [(source, sslot)] else []
      ⟨{ st with producerSlotSource := slotSource', producerBuffers := bufs2 },
       .ok ⟨sslot, fence, nr', ra⟩, calls⟩

/-- Result of the producer-facing `dequeueBuffer`: post-state, the source the
dequeue was routed to, the status, the out-params, and the `requestBuffer`
calls made. -/
structure ProducerDequeueResult where
  st : VDSState
  source : Source
  res : Except Int SourceDequeueOk
  pslot : Option Int
  requestCalls : List (Source × Nat)

/-- `dequeueBuffer(int* pslot, sp<Fence>* fence, w, h, format, usage)`
(producer-facing): move to GLES state, record the producer usage, pick the
source with `fbSourceForCompositionType`, record the sink dimensions when the
source is the sink, delegate to `dequeueBuffer(Source,...)` and map the native
slot into the unified space. -/
def dequeueBufferProducer (st : VDSState) (w h _format usage : Nat)
    (reqBuf : Option Nat) (reply : SourceDequeueReply) : ProducerDequeueResult :=
  let st1 := { st with dbgState := DbgState.gles,
                       producerUsage := usage ||| GRALLOC_USAGE_HW_COMPOSER }
  let source := fbSourceForCompositionType st1.compositionType
  let st2 :=
    if source = Source.sink then
      { st1 with sinkBufferWidth := w, sinkBufferHeight := h }
    else st1
  let r := dequeueBufferSource st2 source reqBuf reply
  match r.res with
  | .error e => ⟨r.st, source, .error e, none, r.requestCalls⟩
  | .ok okr =>
      ⟨r.st, source, .ok okr,
       some (mapSource2ProducerSlot source ((okr.sslot : Int))),
       r.requestCalls⟩

/-- The call `cancelBuffer` forwards: target source, native slot, fence.
The state itself is unchanged by `cancelBuffer`. -/
structure CancelCall where
  source : Source
  sslot : Int
  fence : Fence
deriving DecidableEq

/-- `cancelBuffer(int pslot, const sp<Fence>&)`: route to
`fbSourceForCompositionType(mCompositionType)` with the slot mapped back to
the source's native space. -/
def cancelBuffer (st : VDSState) (pslot : Int) (fence : Fence) : CancelCall :=
  let source := fbSourceForCompositionType st.compositionType
  ⟨source, mapProducer2SourceSlot source pslot, fence⟩

/-- Result of `requestBuffer`: (unchanged) state, status, `*outBuf`, and the
calls made on either source (there are none). -/
structure RequestBufferResult where
  st : VDSState
  status : Int
  outBuf : Option Nat
  sourceCalls : List (Source × Nat)

/-- `requestBuffer(int pslot, sp<GraphicBuffer>* outBuf)`: serve
`mProducerBuffers[pslot]` from the cache and return `NO_ERROR`; no source is
contacted and no state changes (the state-machine check only logs). -/
def requestBuffer (st : VDSState) (pslot : Nat) : RequestBufferResult :=
  ⟨st, NO_ERROR, st.producerBuffers pslot, []⟩

/-- The renderer's `QueueBufferInput` payload: timestamp, crop, scaling mode,
transform, fence (the fields `deflate` extracts). -/
structure QueueBufferInput where
  timestamp : Int
  cropLeft : Nat
  cropTop : Nat
  cropRight : Nat
  cropBottom : Nat
  scalingMode : Nat
  transform : Nat
  fence : Fence
deriving DecidableEq

/-- Reply of `acquireBufferLocked` on the scratch pool: either an error, or
the acquired item's slot `item.mBuf` together with `mSlots[item.mBuf].mFence`. -/
inductive AcquireReply
  | error (e : Int)
  | ok (buf : Nat) (fence : Fence)
deriving DecidableEq

/-- Result of the producer-facing `queueBuffer`: post-state, status, `*output`
(set only on success), and the native scratch slot queued back into the
scratch pool (when the mode is MIXED). -/
structure QueueBufferResult where
  st : VDSState
  status : Int
  output : Option QueueBufferOutput
  scratchQueuedSlot : Option Int

/-- `queueBuffer(int pslot, input, output)`: move to GLES_DONE.  In MIXED mode
queue the buffer back into the scratch pool (status oracle
`scratchQueueStatus`) and immediately re-acquire it (oracle `acquire`),
adopting the acquired slot (mapped to the unified space) and fence as the
frame's framebuffer slot and fence; the slot mismatch with the queued slot is
only logged.  Otherwise (GLES) extract the release fence from the input and
use `pslot` itself.  On success `*output = mQueueBufferOutput`. -/
def queueBuffer (st : VDSState) (pslot : Int) (input : QueueBufferInput)
    (scratchQueueStatus : Int) (acquire : AcquireReply) : QueueBufferResult :=
  let st1 := { st with dbgState := DbgState.glesDone }
  if st1.compositionType = CompositionType.mixed then
    let sslot := mapProducer2SourceSlot Source.scratch pslot
    if scratchQueueStatus ≠ NO_ERROR then
      ⟨st1, scratchQueueStatus, none, some sslot⟩
    else
      match acquire with
      | .error e => ⟨st1, e, none, some sslot⟩
      | .ok buf bufFence =>
          let st2 := { st1 with
            fbProducerSlot :=
              mapSource2ProducerSlot Source.scratch ((buf : Int))
            fbFence := bufFence }
          ⟨st2, NO_ERROR, some st2.queueBufferOutput, some sslot⟩
  else
    let st2 := { st1 with fbFence := input.fence, fbProducerSlot := pslot }
    ⟨st2, NO_ERROR, some st2.queueBufferOutput, none⟩

/-- A call made on the hardware composer by `advanceFrame`. -/
inductive HwcCall
  | fbPost (displayId : Int) (fence : Fence) (buf : Option Nat)
  | setOutputBuffer (displayId : Int) (fence : Fence) (buf : Option Nat)
deriving DecidableEq

/-- Result of `advanceFrame`: post-state, status, hardware-composer calls. -/
structure AdvanceResult where
  st : VDSState
  status : Int
  hwcCalls : List HwcCall

/-- The submission step of `advanceFrame`: bail out with `NO_MEMORY` when
either per-frame slot is missing, otherwise post the framebuffer and (if
that succeeded) the output buffer to the hardware composer.  The state is
returned as received. -/
def advanceSubmit (st : VDSState) (outFence2 : Fence)
    (fbPostStatus setOutputStatus : Int) : AdvanceResult :=
  if st.fbProducerSlot < 0 ∨ st.outputProducerSlot < 0 then
    ⟨st, NO_MEMORY, []⟩
  else
    let fbBuffer := st.producerBuffers st.fbProducerSlot.toNat
    let outBuffer := st.producerBuffers st.outputProducerSlot.toNat
    if fbPostStatus = NO_ERROR then
      ⟨st, setOutputStatus,
       [HwcCall.fbPost st.displayId st.fbFence fbBuffer,
        HwcCall.setOutputBuffer st.displayId outFence2 outBuffer]⟩
    else
      ⟨st, fbPostStatus, [HwcCall.fbPost st.displayId st.fbFence fbBuffer]⟩

/-- The tail of `advanceFrame` after the optional sink dequeue: fix up the
framebuffer/output slots by composition type (HWC reuses the just-dequeued
output slot and fence as the framebuffer; GLES reuses the framebuffer slot
and fence as the output), then submit.  `outFence` is the fence of the sink
dequeue (ignored and replaced by `mFbFence` on the GLES path, which performs
no dequeue). -/
def advanceFrameTail (st : VDSState) (outFence : Fence)
    (fbPostStatus setOutputStatus : Int) : AdvanceResult :=
  let st2 :=
    if st.compositionType = CompositionType.hwc then
      { st with fbProducerSlot := st.outputProducerSlot, fbFence := outFence }
    else st
  let st3 :=
    if st.compositionType = CompositionType.gles then
      { st2 with outputProducerSlot := st2.fbProducerSlot }
    else st2
  let outFence2 :=
    if st.compositionType = CompositionType.gles then st2.fbFence else outFence
  advanceSubmit st3 outFence2 fbPostStatus setOutputStatus

/-- `advanceFrame()`: no-op when `mDisplayId < 0`.  Otherwise move to the HWC
state; unless the mode is GLES, deflate `mQueueBufferOutput` into the sink
dimensions and dequeue an output buffer from the sink (oracles `reply`,
`reqBuf`), propagating a dequeue error; then run the common tail.  The
hardware composer's statuses are the oracles `fbPostStatus` and
`setOutputStatus`. -/
def advanceFrame (st : VDSState) (reqBuf : Option Nat)
    (reply : SourceDequeueReply) (fbPostStatus setOutputStatus : Int) :
    AdvanceResult :=
  if st.displayId < 0 then ⟨st, NO_ERROR, []⟩
  else
    let st1 := { st with dbgState := DbgState.hwc }
    if st1.compositionType = CompositionType.gles then
      advanceFrameTail st1 NO_FENCE fbPostStatus setOutputStatus
    else
      let st2 := { st1 with
        sinkBufferWidth := st1.queueBufferOutput.width
        sinkBufferHeight := st1.queueBufferOutput.height }
      let r := dequeueBufferSource st2 Source.sink reqBuf reply
      match r.res with
      | .error e => ⟨r.st, e, []⟩
      | .ok okr =>
          let st3 := { r.st with
            outputProducerSlot :=
              mapSource2ProducerSlot Source.sink ((okr.sslot : Int)) }
          advanceFrameTail st3 okr.fence fbPostStatus setOutputStatus

/-- `updateQueueBufferOutput(qbo)`: deflate `qbo` and re-inflate it with a
zero transform hint. -/
def updateQueueBufferOutput (st : VDSState) (qbo : QueueBufferOutput) :
    VDSState :=
  { st with queueBufferOutput :=
      { width := qbo.width, height := qbo.height, transformHint := 0,
        numPendingBuffers := qbo.numPendingBuffers } }

/-- A call made on a source or the scratch consumer by `onFrameCommitted`. -/
inductive CommitCall
  | releaseScratch (sslot : Int) (buf : Option Nat) (fence : Fence)
  | queueSink (sslot : Int) (width height : Nat) (fence : Fence)
deriving DecidableEq

/-- Result of `onFrameCommitted`: post-state and the calls made. -/
structure CommitResult where
  st : VDSState
  calls : List CommitCall

/-- `onFrameCommitted()`: no-op when `mDisplayId < 0`.  Otherwise move back to
IDLE; in MIXED mode with a valid framebuffer slot, release the scratch buffer
back into the pool with the composer's release fence (`releaseFence` oracle);
with a valid output slot, queue the output buffer to the sink with the
composer's retire fence (`retireFence`, `sinkStatus`, `sinkQbo` oracles),
updating `mQueueBufferOutput` on success; finally reset the per-frame
state. -/
def onFrameCommitted (st : VDSState) (releaseFence retireFence : Fence)
    (sinkStatus : Int) (sinkQbo : QueueBufferOutput) : CommitResult :=
  if st.displayId < 0 then ⟨st, []⟩
  else
    let st1 := { st with dbgState := DbgState.idle }
    let calls1 : List CommitCall :=
      if st1.compositionType = CompositionType.mixed ∧ 0 ≤ st1.fbProducerSlot
      then
        [CommitCall.releaseScratch
          (mapProducer2SourceSlot Source.scratch st1.fbProducerSlot)
          (st1.producerBuffers st1.fbProducerSlot.toNat) releaseFence]
      else []
    if 0 ≤ st1.outputProducerSlot then
      let sslot := mapProducer2SourceSlot Source.sink st1.outputProducerSlot
      let call : CommitCall :=
        CommitCall.queueSink sslot st1.sinkBufferWidth st1.sinkBufferHeight
          retireFence
      let st2 :=
        if sinkStatus = NO_ERROR then updateQueueBufferOutput st1 sinkQbo
        else st1
      ⟨resetPerFrameState st2, calls1 ++ [call]⟩
    else
      ⟨resetPerFrameState st1, calls1⟩

/-- A fixed state used to instantiate witnesses: display 0, empty tables,
idle frame. -/
def baseState : VDSState where
  displayId := 0
  producerUsage := 0
  producerSlotSource := 0
  producerBuffers := fun _ => none
  compositionType := CompositionType.unknown
  dbgLastCompositionType := CompositionType.unknown
  sinkBufferWidth := 0
  sinkBufferHeight := 0
  fbFence := NO_FENCE
  fbProducerSlot := -1
  outputProducerSlot := -1
  queueBufferOutput := ⟨0, 0, 0, 0⟩
  dbgState := DbgState.idle

/-- The concrete state for the C7 witness: display 0, HWC frame, output
slot 1. -/
def commitWitnessState : VDSState :=
  { baseState with compositionType := CompositionType.hwc,
                   outputProducerSlot := 1 }

/-- Witness for C6: HWC frame on display 0, sink hands back native slot 4. -/
def advanceHwcWitnessState : VDSState :=
  { baseState with compositionType := CompositionType.hwc }

/-- Witness for C3: a GLES frame on display 0 where no buffer was ever
queued, so both per-frame slots are still `-1`. -/
def advanceMissingWitnessState : VDSState :=
  { baseState with compositionType := CompositionType.gles }

/-- State for the C2 counterexample and witness: slots 2 and 5 are owned by
Scratch (`mProducerSlotSource = 0b100100`), slot 5 holds a cached handle. -/
def releaseAllCounterexampleState : VDSState :=
  { baseState with
    producerSlotSource := 36
    producerBuffers := fun j => if j = 5 then some 7 else none }

theorem clearOwnedLoop_succ (slotSource sourceBit : Nat)
    (bufs : Nat → Option Nat) (n : Nat) :
    clearOwnedLoop slotSource sourceBit bufs (n + 1) =
      if slotSource &&& (1 <<< n) = sourceBit then
        setBuf (clearOwnedLoop slotSource sourceBit bufs n) n none
      else clearOwnedLoop slotSource sourceBit bufs n := by
  unfold clearOwnedLoop
  rw [List.range_succ, List.foldl_append, List.foldl_cons, List.foldl_nil]

/-- Pointwise effect of the `RELEASE_ALL_BUFFERS` loop: slot `j` is cleared
exactly when `j` is below the bound and its masked ownership bit equals
`sourceBit`. -/
theorem clearOwnedLoop_apply (slotSource sourceBit : Nat)
    (bufs : Nat → Option Nat) (n j : Nat) :
    clearOwnedLoop slotSource sourceBit bufs n j =
      if j < n ∧ slotSource &&& (1 <<< j) = sourceBit then none else bufs j := by
  induction n with
  | zero => simp [clearOwnedLoop]
  | succ n ih =>
      rw [clearOwnedLoop_succ]
      by_cases hc : slotSource &&& (1 <<< n) = sourceBit
      · rw [if_pos hc]
        by_cases hj : j = n
        · subst hj
          simp [setBuf, hc]
        · simp only [setBuf, if_neg hj, ih]
          have : (j < n ↔ j < n + 1) := by omega
          by_cases hjn : j < n ∧ slotSource &&& (1 <<< j) = sourceBit
          · rw [if_pos hjn, if_pos ⟨by omega, hjn.2⟩]
          · rw [if_neg hjn, if_neg (by
              rintro ⟨h1, h2⟩
              exact hjn ⟨by omega, h2⟩)]
      · rw [if_neg hc, ih]
        by_cases hjn : j < n ∧ slotSource &&& (1 <<< j) = sourceBit
        · rw [if_pos hjn, if_pos ⟨by omega, hjn.2⟩]
        · rw [if_neg hjn, if_neg (by
            rintro ⟨h1, h2⟩
            have hj : j ≠ n := by
              rintro rfl
              exact hc h2
            exact hjn ⟨by omega, h2⟩)]

/-- `x &&& 2 ^ j` is zero exactly when bit `j` of `x` is clear. -/
theorem and_pow_eq_zero_iff (x j : Nat) :
    x &&& (1 <<< j) = 0 ↔ x.testBit j = false := by
  rw [Nat.one_shiftLeft, Nat.and_two_pow]
  cases h : x.testBit j <;> simp [h]

/-- After `mProducerSlotSource &= ~(1u << p); mProducerSlotSource |= tb << p`
the masked ownership bit at `p` equals `tb << p` (for a one-bit tag `tb` and
a valid slot `p`). -/
theorem and_after_flip (a p tb : Nat) (hp : p < 32) (htb : tb = 0 ∨ tb = 1) :
    ((a &&& complement32 (1 <<< p)) ||| (tb <<< p)) &&& (1 <<< p) =
      tb <<< p := by
  have h32 : (2 ^ 32 - 1 : Nat).testBit p = true := by
    rw [Nat.testBit_two_pow_sub_one]
    simp [hp]
  have hc : (complement32 (1 <<< p)).testBit p = false := by
    rw [complement32, Nat.testBit_xor, h32, Nat.one_shiftLeft,
      Nat.testBit_two_pow_self]
    rfl
  rcases htb with rfl | rfl
  · simp only [Nat.zero_shiftLeft, Nat.or_zero]
    rw [and_pow_eq_zero_iff]
    simp [hc]
  · rw [Nat.one_shiftLeft, Nat.and_two_pow]
    simp [Nat.testBit_or, ← Nat.one_shiftLeft, hc, Nat.testBit_two_pow_self,
      Nat.one_shiftLeft]

/-- The producer slot of a valid native slot is itself a valid slot index. -/
theorem pslot_lt (source : Source) (sslot : Nat)
    (hs : sslot < NUM_BUFFER_SLOTS) :
    (mapSource2ProducerSlot source ((sslot : Int))).toNat <
      NUM_BUFFER_SLOTS := by
  have hs' : sslot < 32 := hs
  cases source <;>
    · simp only [mapSource2ProducerSlot, NUM_BUFFER_SLOTS]
      omega

/-- Claim C1: the slot mapping is an involution on valid slots; Scratch maps
`s` to `NUM_BUFFER_SLOTS - s - 1`, Sink is the identity, and
`mapProducer2SourceSlot` is the same function as `mapSource2ProducerSlot`. -/
theorem mapSlot_involution (source : Source) (s : Int)
    (h0 : 0 ≤ s) (hN : s < (NUM_BUFFER_SLOTS : Int)) :
    mapSource2ProducerSlot source (mapSource2ProducerSlot source s) = s ∧
    mapSource2ProducerSlot Source.scratch s = (NUM_BUFFER_SLOTS : Int) - s - 1 ∧
    mapSource2ProducerSlot Source.sink s = s ∧
    mapProducer2SourceSlot source s = mapSource2ProducerSlot source s := by
  cases source <;>
    simp [mapSource2ProducerSlot, mapProducer2SourceSlot] <;> omega

/-- Witness for C1 at `source = scratch`, `s = 3`. -/
theorem mapSlot_involution_witness :
    mapSource2ProducerSlot Source.scratch
        (mapSource2ProducerSlot Source.scratch 3) = 3 ∧
    mapSource2ProducerSlot Source.scratch 3 = (NUM_BUFFER_SLOTS : Int) - 3 - 1 ∧
    mapSource2ProducerSlot Source.sink 3 = 3 ∧
    mapProducer2SourceSlot Source.scratch 3 =
      mapSource2ProducerSlot Source.scratch 3 :=
  mapSlot_involution Source.scratch 3 (by decide) (by decide)

/-- Claim C5: `fbSourceForCompositionType` is a pure function of the
composition mode alone — Scratch exactly for MIXED, Sink for UNKNOWN, GLES
and HWC — and both the producer-facing `dequeueBuffer` and `cancelBuffer`
pick their source with it (applied to the recorded mode, independent of any
other state). -/
theorem fbSource_pure_routing :
    fbSourceForCompositionType CompositionType.mixed = Source.scratch ∧
    fbSourceForCompositionType CompositionType.unknown = Source.sink ∧
    fbSourceForCompositionType CompositionType.gles = Source.sink ∧
    fbSourceForCompositionType CompositionType.hwc = Source.sink ∧
    (∀ st w h fmt usage reqBuf reply,
      (dequeueBufferProducer st w h fmt usage reqBuf reply).source =
        fbSourceForCompositionType st.compositionType) ∧
    (∀ st pslot fence,
      (cancelBuffer st pslot fence).source =
        fbSourceForCompositionType st.compositionType) := by
  refine ⟨rfl, rfl, rfl, rfl, ?_, fun st pslot fence => rfl⟩
  intro st w h fmt usage reqBuf reply
  cases reply <;>
    simp [dequeueBufferProducer, dequeueBufferSource]

/-- Claim C10: `requestBuffer` always returns `NO_ERROR`, serves the handle
purely from the cached `mProducerBuffers` table, contacts neither source, and
changes no state — for every slot index, in every state. -/
theorem requestBuffer_cached (st : VDSState) (pslot : Nat) :
    (requestBuffer st pslot).status = NO_ERROR ∧
    (requestBuffer st pslot).outBuf = st.producerBuffers pslot ∧
    (requestBuffer st pslot).sourceCalls = [] ∧
    (requestBuffer st pslot).st = st :=
  ⟨rfl, rfl, rfl, rfl⟩

/-- Claim C9: with no hardware-composer participation (`mDisplayId < 0`),
`prepareFrame` and `advanceFrame` return `NO_ERROR` immediately,
`onFrameCommitted` returns immediately, none changes any state or calls the
composer, and `getIGraphicBufferProducer` hands out the sink producer
directly. -/
theorem no_hwc_passthrough (st : VDSState) (t : CompositionType)
    (reqBuf : Option Nat) (reply : SourceDequeueReply) (s1 s2 : Int)
    (rf tf : Fence) (ss : Int) (qbo : QueueBufferOutput)
    (hd : st.displayId < 0) :
    prepareFrame st t = (st, NO_ERROR) ∧
    advanceFrame st reqBuf reply s1 s2 = ⟨st, NO_ERROR, []⟩ ∧
    onFrameCommitted st rf tf ss qbo = ⟨st, []⟩ ∧
    getIGraphicBufferProducer st = ProducerRef.sinkRef := by
  refine ⟨?_, ?_, ?_, ?_⟩
  · rw [prepareFrame, if_pos hd]
  · rw [advanceFrame, if_pos hd]
  · rw [onFrameCommitted, if_pos hd]
  · rw [getIGraphicBufferProducer, if_neg (by omega)]

/-- Witness for C9 at a concrete display with `displayId = -1`. -/
theorem no_hwc_passthrough_witness :
    prepareFrame { baseState with displayId := -1 } CompositionType.mixed =
      ({ baseState with displayId := -1 }, NO_ERROR) ∧
    advanceFrame { baseState with displayId := -1 } none
        (SourceDequeueReply.error (-1)) 0 0 =
      ⟨{ baseState with displayId := -1 }, NO_ERROR, []⟩ ∧
    onFrameCommitted { baseState with displayId := -1 } NO_FENCE NO_FENCE 0
        ⟨0, 0, 0, 0⟩ =
      ⟨{ baseState with displayId := -1 }, []⟩ ∧
    getIGraphicBufferProducer { baseState with displayId := -1 } =
      ProducerRef.sinkRef :=
  no_hwc_passthrough { baseState with displayId := -1 } CompositionType.mixed
    none (SourceDequeueReply.error (-1)) 0 0 NO_FENCE NO_FENCE 0 ⟨0, 0, 0, 0⟩
    (by decide)

/-- Claim C7: for a display with hardware-composer participation, after
`onFrameCommitted` every per-frame field is back at its Idle default:
composition type UNKNOWN, sink dimensions 0, `mFbFence = NO_FENCE`,
framebuffer and output producer slots `-1`, and the state machine is IDLE. -/
theorem commit_resets (st : VDSState) (rf tf : Fence) (ss : Int)
    (qbo : QueueBufferOutput) (hd : 0 ≤ st.displayId) :
    (onFrameCommitted st rf tf ss qbo).st.compositionType =
      CompositionType.unknown ∧
    (onFrameCommitted st rf tf ss qbo).st.sinkBufferWidth = 0 ∧
    (onFrameCommitted st rf tf ss qbo).st.sinkBufferHeight = 0 ∧
    (onFrameCommitted st rf tf ss qbo).st.fbFence = NO_FENCE ∧
    (onFrameCommitted st rf tf ss qbo).st.fbProducerSlot = -1 ∧
    (onFrameCommitted st rf tf ss qbo).st.outputProducerSlot = -1 ∧
    (onFrameCommitted st rf tf ss qbo).st.dbgState = DbgState.idle := by
  rw [onFrameCommitted, if_neg (by omega)]
  dsimp only []
  split_ifs <;> simp [resetPerFrameState, updateQueueBufferOutput]

/-- Witness for C7: a committed frame on display 0 with a pending output
slot. -/
theorem commit_resets_witness :
    (onFrameCommitted commitWitnessState NO_FENCE NO_FENCE 0
        ⟨64, 64, 0, 1⟩).st.compositionType = CompositionType.unknown ∧
    (onFrameCommitted commitWitnessState NO_FENCE NO_FENCE 0
        ⟨64, 64, 0, 1⟩).st.sinkBufferWidth = 0 ∧
    (onFrameCommitted commitWitnessState NO_FENCE NO_FENCE 0
        ⟨64, 64, 0, 1⟩).st.sinkBufferHeight = 0 ∧
    (onFrameCommitted commitWitnessState NO_FENCE NO_FENCE 0
        ⟨64, 64, 0, 1⟩).st.fbFence = NO_FENCE ∧
    (onFrameCommitted commitWitnessState NO_FENCE NO_FENCE 0
        ⟨64, 64, 0, 1⟩).st.fbProducerSlot = -1 ∧
    (onFrameCommitted commitWitnessState NO_FENCE NO_FENCE 0
        ⟨64, 64, 0, 1⟩).st.outputProducerSlot = -1 ∧
    (onFrameCommitted commitWitnessState NO_FENCE NO_FENCE 0
        ⟨64, 64, 0, 1⟩).st.dbgState = DbgState.idle :=
  commit_resets commitWitnessState NO_FENCE NO_FENCE 0 ⟨64, 64, 0, 1⟩
    (by decide)

/-- Claim C8: in MIXED mode, when the round-trip acquire from the scratch
pool hands back a slot different from the one just queued, `queueBuffer`
still succeeds (`NO_ERROR`) and adopts the acquired item's slot (mapped to
the unified space) and fence as the frame's framebuffer slot and fence. -/
theorem queue_mixed_mismatch (st : VDSState) (pslot : Int)
    (input : QueueBufferInput) (buf : Nat) (bufFence : Fence)
    (hm : st.compositionType = CompositionType.mixed)
    (hne : (buf : Int) ≠ mapProducer2SourceSlot Source.scratch pslot) :
    (queueBuffer st pslot input NO_ERROR (AcquireReply.ok buf bufFence)).status
      = NO_ERROR ∧
    (queueBuffer st pslot input NO_ERROR
        (AcquireReply.ok buf bufFence)).st.fbProducerSlot =
      mapSource2ProducerSlot Source.scratch (buf : Int) ∧
    (queueBuffer st pslot input NO_ERROR
        (AcquireReply.ok buf bufFence)).st.fbFence = bufFence := by
  refine ⟨?_, ?_, ?_⟩ <;> simp [queueBuffer, hm]

/-- Witness for C8: MIXED frame, queue unified slot 2 (scratch native 29),
acquire hands back native slot 28. -/
theorem queue_mixed_mismatch_witness :
    (queueBuffer { baseState with compositionType := CompositionType.mixed } 2
        ⟨0, 0, 0, 0, 0, 0, 0, NO_FENCE⟩ NO_ERROR
        (AcquireReply.ok 28 (Fence.mk 9))).status = NO_ERROR ∧
    (queueBuffer { baseState with compositionType := CompositionType.mixed } 2
        ⟨0, 0, 0, 0, 0, 0, 0, NO_FENCE⟩ NO_ERROR
        (AcquireReply.ok 28 (Fence.mk 9))).st.fbProducerSlot =
      mapSource2ProducerSlot Source.scratch (28 : Int) ∧
    (queueBuffer { baseState with compositionType := CompositionType.mixed } 2
        ⟨0, 0, 0, 0, 0, 0, 0, NO_FENCE⟩ NO_ERROR
        (AcquireReply.ok 28 (Fence.mk 9))).st.fbFence = Fence.mk 9 :=
  queue_mixed_mismatch { baseState with compositionType := CompositionType.mixed }
    2 ⟨0, 0, 0, 0, 0, 0, 0, NO_FENCE⟩ 28 (Fence.mk 9) rfl (by decide)

/-- Claim C6: in HWC (composite-only) mode, a successful `advanceFrame` makes
the framebuffer producer slot equal to the output producer slot just dequeued
from the sink and the framebuffer fence equal to that dequeue's fence, and
submits the same buffer handle and fence to the hardware composer both via
`fbPost` and via `setOutputBuffer`. -/
theorem advance_hwc_shared_buffer (st : VDSState) (reqBuf : Option Nat)
    (sslot : Nat) (fence : Fence) (nr ra : Bool) (so : Int)
    (hd : 0 ≤ st.displayId) (hc : st.compositionType = CompositionType.hwc) :
    (advanceFrame st reqBuf (SourceDequeueReply.ok sslot fence nr ra)
        NO_ERROR so).st.fbProducerSlot = (sslot : Int) ∧
    (advanceFrame st reqBuf (SourceDequeueReply.ok sslot fence nr ra)
        NO_ERROR so).st.outputProducerSlot = (sslot : Int) ∧
    (advanceFrame st reqBuf (SourceDequeueReply.ok sslot fence nr ra)
        NO_ERROR so).st.fbFence = fence ∧
    (advanceFrame st reqBuf (SourceDequeueReply.ok sslot fence nr ra)
        NO_ERROR so).hwcCalls =
      [HwcCall.fbPost st.displayId fence
        ((advanceFrame st reqBuf (SourceDequeueReply.ok sslot fence nr ra)
          NO_ERROR so).st.producerBuffers sslot),
       HwcCall.setOutputBuffer st.displayId fence
        ((advanceFrame st reqBuf (SourceDequeueReply.ok sslot fence nr ra)
          NO_ERROR so).st.producerBuffers sslot)] ∧
    (advanceFrame st reqBuf (SourceDequeueReply.ok sslot fence nr ra)
        NO_ERROR so).status = so := by
  rw [advanceFrame, if_neg (by omega)]
  rw [if_neg (by simp [hc])]
  simp [dequeueBufferSource, advanceFrameTail, advanceSubmit, hc,
    mapSource2ProducerSlot, Int.not_lt.mpr (Int.natCast_nonneg sslot),
    NO_ERROR]

/-- Witness for C6 at a concrete HWC frame. -/
theorem advance_hwc_shared_buffer_witness :
    (advanceFrame advanceHwcWitnessState none
        (SourceDequeueReply.ok 4 (Fence.mk 3) false false)
        NO_ERROR 0).st.fbProducerSlot = (4 : Int) ∧
    (advanceFrame advanceHwcWitnessState none
        (SourceDequeueReply.ok 4 (Fence.mk 3) false false)
        NO_ERROR 0).st.outputProducerSlot = (4 : Int) ∧
    (advanceFrame advanceHwcWitnessState none
        (SourceDequeueReply.ok 4 (Fence.mk 3) false false)
        NO_ERROR 0).st.fbFence = Fence.mk 3 ∧
    (advanceFrame advanceHwcWitnessState none
        (SourceDequeueReply.ok 4 (Fence.mk 3) false false)
        NO_ERROR 0).hwcCalls =
      [HwcCall.fbPost advanceHwcWitnessState.displayId (Fence.mk 3)
        ((advanceFrame advanceHwcWitnessState none
          (SourceDequeueReply.ok 4 (Fence.mk 3) false false)
          NO_ERROR 0).st.producerBuffers 4),
       HwcCall.setOutputBuffer advanceHwcWitnessState.displayId (Fence.mk 3)
        ((advanceFrame advanceHwcWitnessState none
          (SourceDequeueReply.ok 4 (Fence.mk 3) false false)
          NO_ERROR 0).st.producerBuffers 4)] ∧
    (advanceFrame advanceHwcWitnessState none
        (SourceDequeueReply.ok 4 (Fence.mk 3) false false)
        NO_ERROR 0).status = 0 :=
  advance_hwc_shared_buffer advanceHwcWitnessState none 4 (Fence.mk 3)
    false false 0 (by decide) rfl

/-- Helper for C3: if the state reached by `advanceFrameTail` has a negative
framebuffer or output slot, the tail returns `NO_MEMORY`, makes no
hardware-composer call, and leaves the debug state as it found it. -/
theorem advanceSubmit_st (st : VDSState) (f : Fence) (f1 f2 : Int) :
    (advanceSubmit st f f1 f2).st = st := by
  rw [advanceSubmit]
  split_ifs <;> rfl

theorem advanceSubmit_missing (st : VDSState) (f : Fence) (f1 f2 : Int)
    (h : st.fbProducerSlot < 0 ∨ st.outputProducerSlot < 0) :
    advanceSubmit st f f1 f2 = ⟨st, NO_MEMORY, []⟩ := by
  rw [advanceSubmit, if_pos h]

theorem advanceFrameTail_missing (st : VDSState) (outFence : Fence)
    (f1 f2 : Int)
    (h : (advanceFrameTail st outFence f1 f2).st.fbProducerSlot < 0 ∨
         (advanceFrameTail st outFence f1 f2).st.outputProducerSlot < 0) :
    (advanceFrameTail st outFence f1 f2).status = NO_MEMORY ∧
    (advanceFrameTail st outFence f1 f2).hwcCalls = [] ∧
    (advanceFrameTail st outFence f1 f2).st.dbgState = st.dbgState := by
  rw [advanceFrameTail] at h ⊢
  rw [advanceSubmit_st] at h
  rw [advanceSubmit_missing _ _ _ _ h]
  refine ⟨rfl, rfl, ?_⟩
  split_ifs <;> rfl

/-- Claim C3: when `advanceFrame` reaches the compositor-submission point
(hardware display, and the sink dequeue — when one happens — succeeded) with
a negative framebuffer or output producer slot, it returns `NO_MEMORY`,
makes neither `fbPost` nor `setOutputBuffer` call, and the frame state has
still advanced to the HWC (compositing) state. -/
theorem advance_missing_buffer (st : VDSState) (reqBuf : Option Nat)
    (reply : SourceDequeueReply) (s1 s2 : Int)
    (hd : 0 ≤ st.displayId)
    (hok : st.compositionType = CompositionType.gles ∨
           ∃ sslot fence nrf raf,
             reply = SourceDequeueReply.ok sslot fence nrf raf)
    (hneg : (advanceFrame st reqBuf reply s1 s2).st.fbProducerSlot < 0 ∨
            (advanceFrame st reqBuf reply s1 s2).st.outputProducerSlot < 0) :
    (advanceFrame st reqBuf reply s1 s2).status = NO_MEMORY ∧
    (advanceFrame st reqBuf reply s1 s2).hwcCalls = [] ∧
    (advanceFrame st reqBuf reply s1 s2).st.dbgState = DbgState.hwc := by
  rw [advanceFrame, if_neg (by omega)] at hneg ⊢
  by_cases hg : st.compositionType = CompositionType.gles
  · rw [if_pos (by simpa using hg)] at hneg ⊢
    exact advanceFrameTail_missing _ _ _ _ hneg
  · rw [if_neg (by simpa using hg)] at hneg ⊢
    rcases hok with hok | ⟨sslot, fence, nrf, raf, rfl⟩
    · exact absurd hok hg
    · simp only [dequeueBufferSource] at hneg ⊢
      exact advanceFrameTail_missing _ _ _ _ hneg

/-- Witness for C3 at a concrete GLES frame with no buffer. -/
theorem advance_missing_buffer_witness :
    (advanceFrame advanceMissingWitnessState none
        (SourceDequeueReply.error (-19)) 0 0).status = NO_MEMORY ∧
    (advanceFrame advanceMissingWitnessState none
        (SourceDequeueReply.error (-19)) 0 0).hwcCalls = [] ∧
    (advanceFrame advanceMissingWitnessState none
        (SourceDequeueReply.error (-19)) 0 0).st.dbgState = DbgState.hwc :=
  advance_missing_buffer advanceMissingWitnessState none
    (SourceDequeueReply.error (-19)) 0 0 (by decide) (Or.inl rfl) (by decide)

/-- `x &&& (1 << j)` never equals `1 << p` when `j ≠ p`. -/
theorem and_pow_ne_pow (M j p : Nat) (hjp : j ≠ p) :
    M &&& (1 <<< j) ≠ 1 <<< p := by
  rw [Nat.one_shiftLeft, Nat.one_shiftLeft, Nat.and_two_pow]
  cases hb : M.testBit j
  · simpa using (Nat.pos_pow_of_pos p (by omega)).ne
  · simp only [Bool.toNat_true, Nat.one_mul]
    intro h
    exact hjp (Nat.pow_right_injective (by omega) h)

/-- The buffer table after the release-all loop and the conditional
re-request, read at a slot other than the re-requested one. -/
theorem postBufs_ne (M sb : Nat) (bufs : Nat → Option Nat) (p j : Nat)
    (b : Bool) (reqBuf : Option Nat) (hjp : j ≠ p) :
    (if b = true then setBuf (releaseAllBuffers M sb bufs) p reqBuf
     else releaseAllBuffers M sb bufs) j =
      if j < NUM_BUFFER_SLOTS ∧ M &&& (1 <<< j) = sb then none else bufs j := by
  cases b <;>
    simp [setBuf, hjp, releaseAllBuffers, clearOwnedLoop_apply]

/-- With `sourceBit = 0` (the Sink ownership tag) the clearing condition of
the loop is exactly "ownership bit clear". -/
theorem ite_clear_eq_testBit (M : Nat) (x : Option Nat) (j : Nat)
    (hj : j < NUM_BUFFER_SLOTS) :
    (if j < NUM_BUFFER_SLOTS ∧ M &&& (1 <<< j) = 0 then none else x) =
      if M.testBit j then x else none := by
  cases hb : M.testBit j
  · rw [if_pos ⟨hj, (and_pow_eq_zero_iff _ _).mpr hb⟩]
    simp [hb]
  · rw [if_neg ?_]
    · simp [hb]
    · rintro ⟨h1, h2⟩
      rw [and_pow_eq_zero_iff, hb] at h2
      exact absurd h2 (by decide)


/-- Claim C2 as amended: when the underlying dequeue carries
`RELEASE_ALL_BUFFERS`, the clearing is asymmetric.  For the Sink source
(ownership tag 0), every unified slot `j` other than the just-dequeued one
ends up cleared exactly when its ownership bit marks Sink, and keeps its
cached handle when it marks Scratch.  For the Scratch source (tag 1, so
`sourceBit = 1 << pslot`), no slot other than the just-dequeued one is
touched at all — in particular other Scratch-owned slots are NOT cleared.
The just-dequeued slot itself ends up cleared, then refreshed with the
requested handle when reallocation was flagged.  In neither case is a slot
owned by the other source cleared. -/
theorem dequeue_release_all (st : VDSState) (source : Source) (sslot : Nat)
    (fence : Fence) (nr : Bool) (reqBuf : Option Nat) (j : Nat)
    (hs : sslot < NUM_BUFFER_SLOTS) (hj : j < NUM_BUFFER_SLOTS)
    (hjp : j ≠ (mapSource2ProducerSlot source (sslot : Int)).toNat) :
    (source = Source.sink →
      (dequeueBufferSource st source reqBuf
          (SourceDequeueReply.ok sslot fence nr true)).st.producerBuffers j =
        if ((dequeueBufferSource st source reqBuf
              (SourceDequeueReply.ok sslot fence nr true)).st.producerSlotSource).testBit j
        then st.producerBuffers j
        else none) ∧
    (source = Source.scratch →
      (dequeueBufferSource st source reqBuf
          (SourceDequeueReply.ok sslot fence nr true)).st.producerBuffers j =
        st.producerBuffers j) ∧
    (dequeueBufferSource st source reqBuf
        (SourceDequeueReply.ok sslot fence nr true)).st.producerBuffers
        ((mapSource2ProducerSlot source (sslot : Int)).toNat) =
      (if (nr || decide ((st.producerSlotSource &&&
              (1 <<< (mapSource2ProducerSlot source (sslot : Int)).toNat)) ≠
            Source.toBits source <<<
              (mapSource2ProducerSlot source (sslot : Int)).toNat)) = true
       then reqBuf else none) := by
  have hplt : (mapSource2ProducerSlot source (sslot : Int)).toNat <
      NUM_BUFFER_SLOTS := pslot_lt source sslot hs
  simp only [dequeueBufferSource, if_true]
  refine ⟨?_, ?_, ?_⟩
  · rintro rfl
    rw [postBufs_ne _ _ _ _ _ _ _ hjp]
    simp only [Source.toBits, Nat.zero_shiftLeft]
    exact ite_clear_eq_testBit _ _ _ hj
  · rintro rfl
    rw [postBufs_ne _ _ _ _ _ _ _ hjp]
    simp only [Source.toBits]
    rw [if_neg]
    rintro ⟨h1, h2⟩
    exact and_pow_ne_pow _ _ _ hjp h2
  · by_cases hm : st.producerSlotSource &&&
        (1 <<< (mapSource2ProducerSlot source (sslot : Int)).toNat) =
        Source.toBits source <<< (mapSource2ProducerSlot source (sslot : Int)).toNat
    · have hd : decide (st.producerSlotSource &&&
          (1 <<< (mapSource2ProducerSlot source (sslot : Int)).toNat) ≠
          Source.toBits source <<<
            (mapSource2ProducerSlot source (sslot : Int)).toNat) = false := by
        simp [hm]
      simp only [hd, Bool.or_false]
      cases nr
      · simp only [Bool.false_eq_true, if_false]
        rw [releaseAllBuffers, clearOwnedLoop_apply, if_pos ⟨hplt, hm⟩]
      · simp [setBuf]
    · have hd : decide (st.producerSlotSource &&&
          (1 <<< (mapSource2ProducerSlot source (sslot : Int)).toNat) ≠
          Source.toBits source <<<
            (mapSource2ProducerSlot source (sslot : Int)).toNat) = true := by
        simp [hm]
      simp only [hd, Bool.or_true]
      simp [setBuf]

/-- Counterexample to claim C2 as stated: dequeueing native scratch slot 29
(unified slot 2) with `RELEASE_ALL_BUFFERS` set leaves the cached handle of
unified slot 5 — also owned by Scratch — in place, although the claim says
every slot owned by the calling source is cleared. -/
theorem dequeue_release_all_counterexample :
    ¬ ((dequeueBufferSource releaseAllCounterexampleState Source.scratch none
          (SourceDequeueReply.ok 29 NO_FENCE false true)).st.producerBuffers 5
        = none) := by
  decide

/-- Witness for the amended C2 at the counterexample state, `j = 5`. -/
theorem dequeue_release_all_witness :
    ((Source.scratch : Source) = Source.sink →
      (dequeueBufferSource releaseAllCounterexampleState Source.scratch none
          (SourceDequeueReply.ok 29 NO_FENCE false true)).st.producerBuffers 5 =
        if ((dequeueBufferSource releaseAllCounterexampleState Source.scratch none
              (SourceDequeueReply.ok 29 NO_FENCE false true)).st.producerSlotSource).testBit 5
        then releaseAllCounterexampleState.producerBuffers 5
        else none) ∧
    ((Source.scratch : Source) = Source.scratch →
      (dequeueBufferSource releaseAllCounterexampleState Source.scratch none
          (SourceDequeueReply.ok 29 NO_FENCE false true)).st.producerBuffers 5 =
        releaseAllCounterexampleState.producerBuffers 5) ∧
    (dequeueBufferSource releaseAllCounterexampleState Source.scratch none
        (SourceDequeueReply.ok 29 NO_FENCE false true)).st.producerBuffers
        ((mapSource2ProducerSlot Source.scratch ((29 : Nat) : Int)).toNat) =
      (if (false || decide ((releaseAllCounterexampleState.producerSlotSource &&&
              (1 <<< (mapSource2ProducerSlot Source.scratch ((29 : Nat) : Int)).toNat)) ≠
            Source.toBits Source.scratch <<<
              (mapSource2ProducerSlot Source.scratch ((29 : Nat) : Int)).toNat)) = true
       then none else none) :=
  dequeue_release_all releaseAllCounterexampleState Source.scratch 29 NO_FENCE
    false none 5 (by decide) (by decide) (by decide)

/-- Claim C4: a successful source dequeue of a slot whose recorded ownership
bit disagrees with the dequeuing source flips that bit to the calling
source, marks the result `BUFFER_NEEDS_REALLOCATION`, performs exactly one
`requestBuffer` call on that source for the native slot, and stores the
returned handle as the slot's fresh Buffer Record. -/
theorem dequeue_mismatch_realloc (st : VDSState) (source : Source) (sslot : Nat)
    (fence : Fence) (nr ra : Bool) (reqBuf : Option Nat)
    (hs : sslot < NUM_BUFFER_SLOTS)
    (hmis : st.producerSlotSource &&&
        (1 <<< (mapSource2ProducerSlot source (sslot : Int)).toNat) ≠
      Source.toBits source <<<
        (mapSource2ProducerSlot source (sslot : Int)).toNat) :
    (dequeueBufferSource st source reqBuf
        (SourceDequeueReply.ok sslot fence nr ra)).res =
      Except.ok ⟨sslot, fence, true, ra⟩ ∧
    ((dequeueBufferSource st source reqBuf
        (SourceDequeueReply.ok sslot fence nr ra)).st.producerSlotSource &&&
        (1 <<< (mapSource2ProducerSlot source (sslot : Int)).toNat)) =
      Source.toBits source <<<
        (mapSource2ProducerSlot source (sslot : Int)).toNat ∧
    (dequeueBufferSource st source reqBuf
        (SourceDequeueReply.ok sslot fence nr ra)).requestCalls =
      [(source, sslot)] ∧
    (dequeueBufferSource st source reqBuf
        (SourceDequeueReply.ok sslot fence nr ra)).st.producerBuffers
        ((mapSource2ProducerSlot source (sslot : Int)).toNat) = reqBuf := by
  have hplt : (mapSource2ProducerSlot source (sslot : Int)).toNat <
      NUM_BUFFER_SLOTS := pslot_lt source sslot hs
  have hd : decide (st.producerSlotSource &&&
      (1 <<< (mapSource2ProducerSlot source (sslot : Int)).toNat) ≠
      Source.toBits source <<<
        (mapSource2ProducerSlot source (sslot : Int)).toNat) = true := by
    simp [hmis]
  simp only [dequeueBufferSource, hd, Bool.or_true]
  simp only [if_true]
  refine ⟨trivial, ?_, trivial, ?_⟩
  · exact and_after_flip _ _ _ (by simpa [NUM_BUFFER_SLOTS] using hplt)
      (by cases source <;> simp [Source.toBits])
  · simp [setBuf]

/-- Witness for C4: empty ownership mask (all Sink), dequeue native scratch
slot 29 (unified slot 2) — the bit disagrees, so the slot is re-requested. -/
theorem dequeue_mismatch_realloc_witness :
    (dequeueBufferSource baseState Source.scratch (some 5)
        (SourceDequeueReply.ok 29 NO_FENCE false false)).res =
      Except.ok ⟨29, NO_FENCE, true, false⟩ ∧
    ((dequeueBufferSource baseState Source.scratch (some 5)
        (SourceDequeueReply.ok 29 NO_FENCE false false)).st.producerSlotSource &&&
        (1 <<< (mapSource2ProducerSlot Source.scratch ((29 : Nat) : Int)).toNat)) =
      Source.toBits Source.scratch <<<
        (mapSource2ProducerSlot Source.scratch ((29 : Nat) : Int)).toNat ∧
    (dequeueBufferSource baseState Source.scratch (some 5)
        (SourceDequeueReply.ok 29 NO_FENCE false false)).requestCalls =
      [(Source.scratch, 29)] ∧
    (dequeueBufferSource baseState Source.scratch (some 5)
        (SourceDequeueReply.ok 29 NO_FENCE false false)).st.producerBuffers
        ((mapSource2ProducerSlot Source.scratch ((29 : Nat) : Int)).toNat) =
      some 5 :=
  dequeue_mismatch_realloc baseState Source.scratch 29 NO_FENCE false false
    (some 5) (by decide) (by decide)

end VDS
